import Mathlib

/-!
Verification development for the instagram-service repository: four request
handlers (upload, list, get, delete) over an object store (S3) and a record
store (DynamoDB).  The handlers and adapters are shallowly embedded: the two
backing stores are explicit association lists, backend success/failure of each
external call is an explicit boolean oracle argument (the Python adapters catch
every backend exception and reduce it to a False/None sentinel), and every
handler additionally returns the list of storage calls it issued so that
"no storage operation is performed" style properties can be stated.

Bytes are modelled as `List Nat` (each element < 256 in the properties);
base64 encoding and decoding mirror CPython's `base64.b64encode` /
`base64.b64decode`: the input string is first ASCII encoded (non-ASCII input
raises UnicodeEncodeError), then binascii's a2b_base64 quad loop runs in
non-strict mode (non-alphabet characters are skipped, a pad only terminates
the input once it completes a quad with at least two pending data characters,
and leftover quad state at the end raises the data-characters error or
"Incorrect padding").

The JSON serialization of the list handler is modelled including its failure
mode: items read back through the boto3 DynamoDB resource carry Decimal for
the numeric size attribute, and list_images.py's json.dumps has no default
handler for Decimal (unlike get_image.py's decimal_default), so serializing
any non-empty result raises TypeError, which the top-level except converts to
a 500 response.
-/

/-- Value of a character in the standard base64 alphabet (A-Z, a-z, 0-9, +, /)
as used by CPython's base64 module; characters outside the alphabet (including
the padding character) have no value. -/
def decChar (c : Char) : Option Nat :=
  let n := c.toNat
  if 65 ≤ n ∧ n ≤ 90 then some (n - 65)
  else if 97 ≤ n ∧ n ≤ 122 then some (n - 97 + 26)
  else if 48 ≤ n ∧ n ≤ 57 then some (n - 48 + 52)
  else if n = 43 then some 62
  else if n = 47 then some 63
  else none

/-- Character of a 6-bit value in the standard base64 alphabet. -/
def encChar (v : Nat) : Char :=
  Char.ofNat
    (if v < 26 then 65 + v
     else if v < 52 then 97 + (v - 26)
     else if v < 62 then 48 + (v - 52)
     else if v = 62 then 43
     else 47)

/-- CPython base64.b64encode on a byte string: 3-byte groups become 4 alphabet
characters; a trailing group of 1 or 2 bytes is padded with = to 4 characters. -/
def b64encode : List Nat → List Char
  | [] => []
  | [a] => [encChar (a / 4), encChar (a % 4 * 16), '=', '=']
  | [a, b] => [encChar (a / 4), encChar (a % 4 * 16 + b / 16), encChar (b % 16 * 4), '=']
  | a :: b :: c :: rest =>
    encChar (a / 4) :: encChar (a % 4 * 16 + b / 16) ::
      encChar (b % 16 * 4 + c / 64) :: encChar (c % 64) :: b64encode rest

/-- Lowercase hexadecimal digits of n, left padded with zeros to width w; the
formatting CPython uses for the character inside a UnicodeEncodeError. -/
def hexPad (n w : Nat) : String :=
  let ds := Nat.toDigits 16 n
  String.mk (List.replicate (w - ds.length) '0' ++ ds)

/-- Rendering of a non-ASCII character inside a UnicodeEncodeError message:
backslash x, u or U followed by 2, 4 or 8 lowercase hex digits depending on
the code point. -/
def pyCharRepr (c : Char) : String :=
  if c.toNat < 256 then "\\x" ++ hexPad c.toNat 2
  else if c.toNat < 65536 then "\\u" ++ hexPad c.toNat 4
  else "\\U" ++ hexPad c.toNat 8

/-- CPython str.encode ascii failure detection and message: the first maximal
run of non-ASCII characters determines the UnicodeEncodeError message (single
character form when the run has length one, range form otherwise); none when
the string is pure ASCII.  The second argument is the position of the head of
the remaining input. -/
def asciiEncodeError : List Char → Nat → Option String
  | [], _ => none
  | c :: rest, i =>
    if c.toNat < 128 then asciiEncodeError rest (i + 1)
    else
      let run := 1 + (rest.takeWhile (fun d => 128 ≤ d.toNat)).length
      if run = 1 then
        some ("'ascii' codec can't encode character '" ++ pyCharRepr c ++
          "' in position " ++ toString i ++ ": ordinal not in range(128)")
      else
        some ("'ascii' codec can't encode characters in position " ++
          toString i ++ "-" ++ toString (i + run - 1) ++
          ": ordinal not in range(128)")

/-- Core loop of CPython binascii.a2b_base64 in non-strict mode, over the
input characters with state quad_pos, leftchar, pads and the (reversed)
emitted bytes.  Characters outside the alphabet are skipped.  A pad character
is only counted once at least two data characters of the current quad are
pending, and ends the input successfully when the counted pads complete the
quad to four.  A data character resets the pad count and feeds the quad
machine, which emits one byte in each of states 1, 2 and 3.  Leftover state 1
at the end of input is the cannot-be-1-more-than-a-multiple-of-4 error (its
count is reconstructed from the bytes emitted so far); leftover states 2 and
3 are the Incorrect padding error. -/
def a2b_base64 : List Char → Nat → Nat → Nat → List Nat → Except String (List Nat)
  | [], quad_pos, _left, _pads, acc =>
    if quad_pos = 0 then .ok acc.reverse
    else if quad_pos = 1 then
      .error ("Invalid base64-encoded string: number of data characters (" ++
        toString (acc.length / 3 * 4 + 1) ++
        ") cannot be 1 more than a multiple of 4")
    else .error "Incorrect padding"
  | c :: rest, quad_pos, left, pads, acc =>
    if c = '=' then
      if 2 ≤ quad_pos then
        if 4 ≤ quad_pos + (pads + 1) then .ok acc.reverse
        else a2b_base64 rest quad_pos left (pads + 1) acc
      else a2b_base64 rest quad_pos left pads acc
    else
      match decChar c with
      | none => a2b_base64 rest quad_pos left pads acc
      | some v =>
        match quad_pos with
        | 0 => a2b_base64 rest 1 v 0 acc
        | 1 => a2b_base64 rest 2 (v % 16) 0 ((left * 4 + v / 16) :: acc)
        | 2 => a2b_base64 rest 3 (v % 4) 0 ((left * 16 + v / 4) :: acc)
        | _ => a2b_base64 rest 0 0 0 ((left * 64 + v) :: acc)

/-- CPython base64.b64decode on a str argument: the string is ASCII encoded
first (non-ASCII raises UnicodeEncodeError), then binascii.a2b_base64 decodes
it in non-strict mode.  The error strings are exactly what str(e)
interpolates into the upload handler's 400 message. -/
def b64decode (s : List Char) : Except String (List Nat) :=
  match asciiEncodeError s 0 with
  | some e => .error e
  | none => a2b_base64 s 0 0 0 []

/-- Python str.lower as the handlers use it (ASCII flag values): lower each
character.  String.toLower is extensionally the same but is defined by
well-founded recursion on byte positions, which blocks kernel evaluation. -/
def pyLower (s : String) : String :=
  String.mk (s.data.map Char.toLower)

/-- Image metadata record, exactly the dictionary assembled by
upload_image.lambda_handler.  The tag field models the optional tag key that
is added only when tags is non-empty (it feeds the DynamoDB tag-index GSI). -/
structure Record where
  image_id : String
  user_id : String
  title : String
  description : String
  tags : List String
  upload_date : String
  content_type : String
  size : Nat
  tag : Option String
deriving Repr, DecidableEq

/-- Structured response bodies: each constructor is the shape of one
json.dumps payload produced by a handler. -/
inductive Body where
  /-- an error payload: json.dumps with a single error key -/
  | error (msg : String) : Body
  /-- delete_image failure payload with both deletion booleans -/
  | deleteError (msg : String) (s3_deleted metadata_deleted : Bool) : Body
  /-- upload_image 201 payload -/
  | uploadOk (message : String) (image_id : String) (metadata : Record) : Body
  /-- get_image metadata-only payload -/
  | getMeta (image_id : String) (metadata : Record) : Body
  /-- get_image presigned-url payload -/
  | getUrl (image_id : String) (url : String) (metadata : Record) : Body
  /-- get_image download payload (image_data is the base64 text of the blob) -/
  | getData (image_id : String) (image_data : List Char) (content_type : String)
      (metadata : Record) : Body
  /-- list_images payload -/
  | listOk (count : Nat) (images : List Record) : Body
  /-- delete_image 200 payload -/
  | deleteOk (message : String) (image_id : String) : Body
deriving Repr, DecidableEq

/-- Normalized handler response: statusCode plus structured body. -/
structure Response where
  statusCode : Nat
  body : Body
deriving Repr, DecidableEq

/-- One storage-adapter invocation, recorded in the order the handler issues
them; used to state which adapter operations a request path performs. -/
inductive StorageCall where
  | s3Put (image_id : String) (image_data : List Nat) (content_type : String) : StorageCall
  | s3Get (image_id : String) : StorageCall
  | s3Delete (image_id : String) : StorageCall
  | signUrl (image_id : String) : StorageCall
  | dbPut (metadata : Record) : StorageCall
  | dbGet (image_id : String) : StorageCall
  | dbDelete (image_id : String) : StorageCall
deriving Repr, DecidableEq

/-- Combined backing-store state: the S3 bucket (blobs keyed by image_id) and
the DynamoDB table (records keyed by image_id). -/
structure Stores where
  s3 : List (String × List Nat)
  db : List Record
deriving Repr, DecidableEq

namespace s3_utils

/-- s3_utils.upload_image: put_object keyed by image_id, overwriting any
existing blob; any backend exception is caught and reduced to False (the ok
oracle argument stands for the backend call outcome). -/
def upload_image (ok : Bool) (s3 : List (String × List Nat)) (image_id : String)
    (image_data : List Nat) (_content_type : String) : Bool × List (String × List Nat) :=
  if ok then (true, (image_id, image_data) :: s3.filter (fun p => p.1 != image_id))
  else (false, s3)

/-- s3_utils.download_image: get_object keyed by image_id; any backend
exception (including not-found) is caught and reduced to None. -/
def download_image (ok : Bool) (s3 : List (String × List Nat)) (image_id : String) :
    Option (List Nat) :=
  if ok then List.lookup image_id s3 else none

/-- s3_utils.delete_image: delete_object keyed by image_id (succeeds also when
the key is absent); exceptions reduced to False. -/
def delete_image (ok : Bool) (s3 : List (String × List Nat)) (image_id : String) :
    Bool × List (String × List Nat) :=
  if ok then (true, s3.filter (fun p => p.1 != image_id)) else (false, s3)

/-- s3_utils.get_image_url: generate_presigned_url is an external call, so its
result is passed in as an oracle; exceptions are reduced to None. -/
def get_image_url (urlResult : Option String) (_image_id : String) : Option String :=
  urlResult

end s3_utils

namespace dynamodb_utils

/-- dynamodb_utils.save_image_metadata: put_item upserts the record by
image_id; exceptions reduced to False. -/
def save_image_metadata (ok : Bool) (db : List Record) (metadata : Record) :
    Bool × List Record :=
  if ok then (true, metadata :: db.filter (fun r => r.image_id != metadata.image_id))
  else (false, db)

/-- dynamodb_utils.get_image_metadata: get_item by image_id; exceptions
(and not-found) reduced to None. -/
def get_image_metadata (ok : Bool) (db : List Record) (image_id : String) :
    Option Record :=
  if ok then db.find? (fun r => r.image_id == image_id) else none

/-- dynamodb_utils.delete_image_metadata: delete_item by image_id; exceptions
reduced to False. -/
def delete_image_metadata (ok : Bool) (db : List Record) (image_id : String) :
    Bool × List Record :=
  if ok then (true, db.filter (fun r => r.image_id != image_id)) else (false, db)

/-- The filter dictionary built by list_images.lambda_handler: user_id wins
when both query parameters are present. -/
inductive ListFilter where
  | byUser (user_id : String) : ListFilter
  | byTag (tag : String) : ListFilter
deriving Repr, DecidableEq

/-- Newest-first order on records: a comes before b when b's upload_date is
at most a's (DynamoDB range-key order with ScanIndexForward=False). -/
def recentFirst (a b : Record) : Prop :=
  b.upload_date ≤ a.upload_date

instance : DecidableRel recentFirst :=
  fun a b => inferInstanceAs (Decidable (b.upload_date ≤ a.upload_date))

instance : IsTotal Record recentFirst :=
  ⟨fun a b => le_total b.upload_date a.upload_date⟩

instance : IsTrans Record recentFirst :=
  ⟨fun _ _ _ hab hbc => le_trans hbc hab⟩

/-- dynamodb_utils.list_images.  A user_id filter queries the user_id-index
GSI (records with matching user_id, range key upload_date, descending); a tag
filter queries the tag-index GSI, which contains exactly the records carrying
a tag attribute, matched against it; no filter scans the whole table.  A
backend exception anywhere in the query is caught and reduced to an empty
list (the ok oracle argument stands for the backend outcome). -/
def list_images (ok : Bool) (db : List Record) (filters : Option ListFilter) :
    List Record :=
  if ok then
    match filters with
    | some (.byUser u) =>
      (db.filter (fun r => r.user_id == u)).insertionSort recentFirst
    | some (.byTag t) =>
      (db.filter (fun r => r.tag == some t)).insertionSort recentFirst
    | none => db
  else []

end dynamodb_utils

namespace upload_image

/-- Parsed request body of the upload handler: each optional field models
presence or absence of the JSON key. -/
structure RequestBody where
  image : Option (List Char)
  user_id : Option String
  title : Option String
  description : Option String
  tags : Option (List String)
  content_type : Option String
deriving Repr, DecidableEq

/-- upload_image.lambda_handler.  image_id (uuid4) and upload_date
(datetime.utcnow) are generated externally and passed in; s3PutOk and dbPutOk
are the backend outcomes of the two puts.  Returns the response, the new store
state, and the storage calls issued. -/
def lambda_handler (body : RequestBody) (image_id upload_date : String)
    (s3PutOk dbPutOk : Bool) (st : Stores) :
    Response × Stores × List StorageCall :=
  match body.image with
  | none => (⟨400, .error "Image data is required"⟩, st, [])
  | some image_b64 =>
    match body.user_id with
    | none => (⟨400, .error "user_id is required"⟩, st, [])
    | some uid =>
      match b64decode image_b64 with
      | .error e => (⟨400, .error ("Invalid base64 image data: " ++ e)⟩, st, [])
      | .ok image_data =>
        let content_type := body.content_type.getD "image/jpeg"
        let put := s3_utils.upload_image s3PutOk st.s3 image_id image_data content_type
        if !put.1 then
          (⟨500, .error "Failed to upload image to S3"⟩, ⟨put.2, st.db⟩,
            [.s3Put image_id image_data content_type])
        else
          let metadata : Record :=
            { image_id := image_id
              user_id := uid
              title := body.title.getD ""
              description := body.description.getD ""
              tags := body.tags.getD []
              upload_date := upload_date
              content_type := content_type
              size := image_data.length
              tag := (body.tags.getD []).head? }
          let save := dynamodb_utils.save_image_metadata dbPutOk st.db metadata
          if !save.1 then
            (⟨500, .error "Failed to save metadata"⟩, ⟨put.2, save.2⟩,
              [.s3Put image_id image_data content_type, .dbPut metadata])
          else
            (⟨201, .uploadOk "Image uploaded successfully" image_id metadata⟩,
              ⟨put.2, save.2⟩,
              [.s3Put image_id image_data content_type, .dbPut metadata])

end upload_image

namespace get_image

/-- get_image.lambda_handler.  dbGetOk / s3GetOk are the backend outcomes of
the metadata get and the blob get; urlResult is the outcome of
generate_presigned_url.  Returns the response and the storage calls issued. -/
def lambda_handler (pathParameters queryStringParameters : Option (List (String × String)))
    (dbGetOk s3GetOk : Bool) (urlResult : Option String) (st : Stores) :
    Response × List StorageCall :=
  match List.lookup "image_id" (pathParameters.getD []) with
  | none => (⟨400, .error "image_id is required"⟩, [])
  | some image_id =>
    let query_params := queryStringParameters.getD []
    match dynamodb_utils.get_image_metadata dbGetOk st.db image_id with
    | none => (⟨404, .error "Image not found"⟩, [.dbGet image_id])
    | some metadata =>
      if pyLower ((List.lookup "url" query_params).getD "") = "true" then
        match s3_utils.get_image_url urlResult image_id with
        | none => (⟨500, .error "Failed to generate presigned URL"⟩,
            [.dbGet image_id, .signUrl image_id])
        | some presigned_url =>
          if presigned_url = "" then
            (⟨500, .error "Failed to generate presigned URL"⟩,
              [.dbGet image_id, .signUrl image_id])
          else
            (⟨200, .getUrl image_id presigned_url metadata⟩,
              [.dbGet image_id, .signUrl image_id])
      else if pyLower ((List.lookup "download" query_params).getD "") = "true" then
        match s3_utils.download_image s3GetOk st.s3 image_id with
        | none => (⟨404, .error "Image data not found"⟩,
            [.dbGet image_id, .s3Get image_id])
        | some image_data =>
          if image_data.isEmpty then
            (⟨404, .error "Image data not found"⟩, [.dbGet image_id, .s3Get image_id])
          else
            (⟨200, .getData image_id (b64encode image_data) metadata.content_type metadata⟩,
              [.dbGet image_id, .s3Get image_id])
      else
        (⟨200, .getMeta image_id metadata⟩, [.dbGet image_id])

end get_image

namespace delete_image

/-- delete_image.lambda_handler.  dbGetOk, s3DeleteOk, dbDeleteOk are the
backend outcomes of the existence check and the two deletes.  Returns the
response, the new store state, and the storage calls issued. -/
def lambda_handler (pathParameters : Option (List (String × String)))
    (dbGetOk s3DeleteOk dbDeleteOk : Bool) (st : Stores) :
    Response × Stores × List StorageCall :=
  match List.lookup "image_id" (pathParameters.getD []) with
  | none => (⟨400, .error "image_id is required"⟩, st, [])
  | some image_id =>
    match dynamodb_utils.get_image_metadata dbGetOk st.db image_id with
    | none => (⟨404, .error "Image not found"⟩, st, [.dbGet image_id])
    | some _metadata =>
      let sdel := s3_utils.delete_image s3DeleteOk st.s3 image_id
      let ddel := dynamodb_utils.delete_image_metadata dbDeleteOk st.db image_id
      let calls := [StorageCall.dbGet image_id, .s3Delete image_id, .dbDelete image_id]
      if !sdel.1 || !ddel.1 then
        (⟨500, .deleteError "Failed to delete image completely" sdel.1 ddel.1⟩,
          ⟨sdel.2, ddel.2⟩, calls)
      else
        (⟨200, .deleteOk "Image deleted successfully" image_id⟩, ⟨sdel.2, ddel.2⟩, calls)

end delete_image

namespace list_images

/-- The filter dictionary built by list_images.lambda_handler: only user_id
when that key is present, else only tag when present, else empty (passed to
the adapter as None). -/
def build_filters (query_params : List (String × String)) :
    Option dynamodb_utils.ListFilter :=
  match List.lookup "user_id" query_params with
  | some u => some (.byUser u)
  | none =>
    match List.lookup "tag" query_params with
    | some t => some (.byTag t)
    | none => none

/-- list_images.lambda_handler.  queryOk is the backend outcome of the
DynamoDB query/scan.  The final json.dumps of the count and items has no
default handler for Decimal, while every item read back through the boto3
DynamoDB resource carries Decimal for its numeric size attribute; so an empty
result serializes to the 200 body with count 0, and any non-empty result
raises TypeError, which the top-level except turns into the interpolated 500
Internal server error (get_image.py carries a decimal_default helper for
exactly this; list_images.py does not). -/
def lambda_handler (queryStringParameters : Option (List (String × String)))
    (queryOk : Bool) (db : List Record) : Response :=
  let query_params := queryStringParameters.getD []
  let filters := build_filters query_params
  let images := dynamodb_utils.list_images queryOk db filters
  match images with
  | [] => ⟨200, .listOk 0 []⟩
  | _ :: _ =>
    ⟨500, .error "Internal server error: Object of type Decimal is not JSON serializable"⟩

end list_images

/-- Concrete record used as a test fixture in witness and counterexample
theorems (its tag field is the head of its tags, as upload produces). -/
def sampleRecord : Record :=
  { image_id := "i1"
    user_id := "u1"
    title := "t"
    description := "d"
    tags := ["a", "b"]
    upload_date := "2024-01-01T00:00:00"
    content_type := "image/jpeg"
    size := 5
    tag := some "a" }

/-- Decoding a character of the base64 alphabet recovers its 6-bit value. -/
theorem decChar_encChar (v : Nat) (h : v < 64) : decChar (encChar v) = some v := by
  interval_cases v <;> rfl

/-- Characters of the base64 alphabet are never the padding character. -/
theorem encChar_ne_pad (v : Nat) (h : v < 64) : encChar v ≠ '=' := by
  interval_cases v <;> decide

/-- Characters of the base64 alphabet are ASCII. -/
theorem encChar_toNat_lt (v : Nat) (h : v < 64) : (encChar v).toNat < 128 := by
  interval_cases v <;> decide

/-- ASCII-only strings pass the ascii encode step without error. -/
theorem asciiEncodeError_of_ascii : ∀ (s : List Char), (∀ c ∈ s, c.toNat < 128) →
    ∀ i, asciiEncodeError s i = none
  | [], _, _ => rfl
  | c :: rest, h, i => by
    have hc := h c (by simp)
    simp only [asciiEncodeError, if_pos hc]
    exact asciiEncodeError_of_ascii rest (fun d hd => h d (by simp [hd])) (i + 1)

/-- Every character of an encoded byte string is ASCII. -/
theorem b64encode_ascii : ∀ (B : List Nat), (∀ x ∈ B, x < 256) →
    ∀ ch ∈ b64encode B, ch.toNat < 128
  | [], _, ch, hch => by simp [b64encode] at hch
  | [a], h, ch, hch => by
    have ha := h a (by simp)
    simp only [b64encode, List.mem_cons, List.not_mem_nil, or_false] at hch
    rcases hch with rfl | rfl | rfl | rfl
    · exact encChar_toNat_lt _ (by omega)
    · exact encChar_toNat_lt _ (by omega)
    · decide
    · decide
  | [a, b], h, ch, hch => by
    have ha := h a (by simp)
    have hb := h b (by simp)
    simp only [b64encode, List.mem_cons, List.not_mem_nil, or_false] at hch
    rcases hch with rfl | rfl | rfl | rfl
    · exact encChar_toNat_lt _ (by omega)
    · exact encChar_toNat_lt _ (by omega)
    · exact encChar_toNat_lt _ (by omega)
    · decide
  | a :: b :: c :: rest, h, ch, hch => by
    have ha := h a (by simp)
    have hb := h b (by simp)
    have hc := h c (by simp)
    simp only [b64encode, List.mem_cons] at hch
    rcases hch with rfl | rfl | rfl | rfl | hmem
    · exact encChar_toNat_lt _ (by omega)
    · exact encChar_toNat_lt _ (by omega)
    · exact encChar_toNat_lt _ (by omega)
    · exact encChar_toNat_lt _ (by omega)
    · exact b64encode_ascii rest (fun x hx => h x (by simp [hx])) ch hmem

/-- Quad machine step on a data character in state 0. -/
theorem a2b_step0 (c : Char) (rest : List Char) (left pads : Nat) (acc : List Nat)
    (v : Nat) (hne : c ≠ '=') (hv : decChar c = some v) :
    a2b_base64 (c :: rest) 0 left pads acc = a2b_base64 rest 1 v 0 acc := by
  simp [a2b_base64, hne, hv]

/-- Quad machine step on a data character in state 1 (emits the first byte). -/
theorem a2b_step1 (c : Char) (rest : List Char) (left pads : Nat) (acc : List Nat)
    (v : Nat) (hne : c ≠ '=') (hv : decChar c = some v) :
    a2b_base64 (c :: rest) 1 left pads acc =
      a2b_base64 rest 2 (v % 16) 0 ((left * 4 + v / 16) :: acc) := by
  simp [a2b_base64, hne, hv]

/-- Quad machine step on a data character in state 2 (emits the second byte). -/
theorem a2b_step2 (c : Char) (rest : List Char) (left pads : Nat) (acc : List Nat)
    (v : Nat) (hne : c ≠ '=') (hv : decChar c = some v) :
    a2b_base64 (c :: rest) 2 left pads acc =
      a2b_base64 rest 3 (v % 4) 0 ((left * 16 + v / 4) :: acc) := by
  simp [a2b_base64, hne, hv]

/-- Quad machine step on a data character in state 3 (emits the third byte). -/
theorem a2b_step3 (c : Char) (rest : List Char) (left pads : Nat) (acc : List Nat)
    (v : Nat) (hne : c ≠ '=') (hv : decChar c = some v) :
    a2b_base64 (c :: rest) 3 left pads acc =
      a2b_base64 rest 0 0 0 ((left * 64 + v) :: acc) := by
  simp [a2b_base64, hne, hv]

/-- A first pad in state 2 is counted but does not yet end the input. -/
theorem a2b_pad_wait2 (rest : List Char) (left : Nat) (acc : List Nat) :
    a2b_base64 ('=' :: rest) 2 left 0 acc = a2b_base64 rest 2 left 1 acc := by
  simp [a2b_base64]

/-- A second pad in state 2 completes the quad and ends the input. -/
theorem a2b_pad_done2 (rest : List Char) (left : Nat) (acc : List Nat) :
    a2b_base64 ('=' :: rest) 2 left 1 acc = .ok acc.reverse := by
  simp [a2b_base64]

/-- A pad in state 3 completes the quad and ends the input. -/
theorem a2b_pad_done3 (rest : List Char) (left : Nat) (acc : List Nat) :
    a2b_base64 ('=' :: rest) 3 left 0 acc = .ok acc.reverse := by
  simp [a2b_base64]

/-- The decode loop inverts the encoder: running it on an encoded byte string
from the initial state appends exactly the original bytes. -/
theorem a2b_base64_encode : ∀ (B : List Nat), (∀ x ∈ B, x < 256) →
    ∀ acc : List Nat, a2b_base64 (b64encode B) 0 0 0 acc = .ok (acc.reverse ++ B)
  | [], _, acc => by simp [b64encode, a2b_base64]
  | [a], h, acc => by
    have ha := h a (by simp)
    have h1 : a / 4 < 64 := by omega
    have h2 : a % 4 * 16 < 64 := by omega
    rw [show b64encode [a] = [encChar (a / 4), encChar (a % 4 * 16), '=', '='] from rfl,
      a2b_step0 _ _ _ _ _ _ (encChar_ne_pad _ h1) (decChar_encChar _ h1),
      a2b_step1 _ _ _ _ _ _ (encChar_ne_pad _ h2) (decChar_encChar _ h2),
      a2b_pad_wait2, a2b_pad_done2]
    have e1 : a / 4 * 4 + a % 4 = a := by omega
    simp [e1]
  | [a, b], h, acc => by
    have ha := h a (by simp)
    have hb := h b (by simp)
    have h1 : a / 4 < 64 := by omega
    have h2 : a % 4 * 16 + b / 16 < 64 := by omega
    have h3 : b % 16 * 4 < 64 := by omega
    rw [show b64encode [a, b] =
        [encChar (a / 4), encChar (a % 4 * 16 + b / 16), encChar (b % 16 * 4), '='] from rfl,
      a2b_step0 _ _ _ _ _ _ (encChar_ne_pad _ h1) (decChar_encChar _ h1),
      a2b_step1 _ _ _ _ _ _ (encChar_ne_pad _ h2) (decChar_encChar _ h2),
      a2b_step2 _ _ _ _ _ _ (encChar_ne_pad _ h3) (decChar_encChar _ h3),
      a2b_pad_done3]
    have e1 : a / 4 * 4 + (a % 4 * 16 + b / 16) / 16 = a := by omega
    have e2 : (a % 4 * 16 + b / 16) % 16 * 16 + b % 16 = b := by omega
    simp [e1, e2]
  | a :: b :: c :: rest, h, acc => by
    have ha := h a (by simp)
    have hb := h b (by simp)
    have hc := h c (by simp)
    have h1 : a / 4 < 64 := by omega
    have h2 : a % 4 * 16 + b / 16 < 64 := by omega
    have h3 : b % 16 * 4 + c / 64 < 64 := by omega
    have h4 : c % 64 < 64 := by omega
    rw [show b64encode (a :: b :: c :: rest) =
        encChar (a / 4) :: encChar (a % 4 * 16 + b / 16) ::
          encChar (b % 16 * 4 + c / 64) :: encChar (c % 64) :: b64encode rest from rfl,
      a2b_step0 _ _ _ _ _ _ (encChar_ne_pad _ h1) (decChar_encChar _ h1),
      a2b_step1 _ _ _ _ _ _ (encChar_ne_pad _ h2) (decChar_encChar _ h2),
      a2b_step2 _ _ _ _ _ _ (encChar_ne_pad _ h3) (decChar_encChar _ h3),
      a2b_step3 _ _ _ _ _ _ (encChar_ne_pad _ h4) (decChar_encChar _ h4)]
    have e1 : a / 4 * 4 + (a % 4 * 16 + b / 16) / 16 = a := by omega
    have e2 : (a % 4 * 16 + b / 16) % 16 * 16 + (b % 16 * 4 + c / 64) / 4 = b := by omega
    have e3 : (b % 16 * 4 + c / 64) % 4 * 64 + c % 64 = c := by omega
    rw [e1, e2, e3,
      a2b_base64_encode rest (fun x hx => h x (by simp [hx])) (c :: b :: a :: acc)]
    simp

/-- Base64 round-trip: decoding an encoded byte string recovers the bytes. -/
theorem b64decode_b64encode (B : List Nat) (h : ∀ x ∈ B, x < 256) :
    b64decode (b64encode B) = .ok B := by
  have hascii := asciiEncodeError_of_ascii (b64encode B) (b64encode_ascii B h) 0
  have hloop := a2b_base64_encode B h []
  simp only [b64decode, hascii]
  simpa using hloop

/-- C7: an upload request without the image field returns 400 with error
"Image data is required"; one with image but without user_id returns 400 with
error "user_id is required"; in both cases no storage call is issued and the
stores are unchanged. -/
theorem C7_upload_validation (body : upload_image.RequestBody)
    (image_id upload_date : String) (s3PutOk dbPutOk : Bool) (st : Stores) :
    (body.image = none →
      upload_image.lambda_handler body image_id upload_date s3PutOk dbPutOk st =
        (⟨400, .error "Image data is required"⟩, st, [])) ∧
    (∀ img, body.image = some img → body.user_id = none →
      upload_image.lambda_handler body image_id upload_date s3PutOk dbPutOk st =
        (⟨400, .error "user_id is required"⟩, st, [])) := by
  constructor
  · intro h
    simp [upload_image.lambda_handler, h]
  · intro img h hu
    simp [upload_image.lambda_handler, h, hu]

/-- Witness for C7 at a concrete missing-image request. -/
theorem C7_upload_validation_witness :
    upload_image.lambda_handler ⟨none, some "u1", none, none, none, none⟩
        "i1" "2024-01-01T00:00:00" true true ⟨[], []⟩ =
      (⟨400, .error "Image data is required"⟩, ⟨[], []⟩, []) :=
  (C7_upload_validation ⟨none, some "u1", none, none, none, none⟩
    "i1" "2024-01-01T00:00:00" true true ⟨[], []⟩).1 rfl

/-- C2: for every validated upload request, a failed S3 put yields 500
"Failed to upload image to S3" with the record store untouched and only the
s3 put attempted; a successful S3 put followed by a failed metadata put yields
500 "Failed to save metadata" with the blob still in the object store and no
compensating delete issued (the call list is exactly the two puts). -/
theorem C2_upload_failure_no_compensation (body : upload_image.RequestBody)
    (img : List Char) (uid : String) (data : List Nat)
    (himg : body.image = some img) (huid : body.user_id = some uid)
    (hdec : b64decode img = .ok data)
    (image_id upload_date : String) (st : Stores) :
    (∀ dbPutOk,
      upload_image.lambda_handler body image_id upload_date false dbPutOk st =
        (⟨500, .error "Failed to upload image to S3"⟩, st,
          [.s3Put image_id data (body.content_type.getD "image/jpeg")])) ∧
    (∃ metadata,
      upload_image.lambda_handler body image_id upload_date true false st =
        (⟨500, .error "Failed to save metadata"⟩,
          ⟨(image_id, data) :: st.s3.filter (fun p => p.1 != image_id), st.db⟩,
          [.s3Put image_id data (body.content_type.getD "image/jpeg"),
            .dbPut metadata])) := by
  constructor
  · intro dbPutOk
    simp [upload_image.lambda_handler, himg, huid, hdec, s3_utils.upload_image]
  · refine ⟨{ image_id := image_id
              user_id := uid
              title := body.title.getD ""
              description := body.description.getD ""
              tags := body.tags.getD []
              upload_date := upload_date
              content_type := body.content_type.getD "image/jpeg"
              size := data.length
              tag := (body.tags.getD []).head? }, ?_⟩
    simp [upload_image.lambda_handler, himg, huid, hdec, s3_utils.upload_image,
      dynamodb_utils.save_image_metadata]

/-- Witness for C2 at a concrete request whose S3 put fails. -/
theorem C2_upload_failure_no_compensation_witness :
    upload_image.lambda_handler ⟨some [], some "u1", none, none, none, none⟩
        "i1" "2024-01-01T00:00:00" false true ⟨[], []⟩ =
      (⟨500, .error "Failed to upload image to S3"⟩, ⟨[], []⟩,
        [.s3Put "i1" [] "image/jpeg"]) :=
  (C2_upload_failure_no_compensation ⟨some [], some "u1", none, none, none, none⟩
    [] "u1" [] rfl rfl rfl "i1" "2024-01-01T00:00:00" ⟨[], []⟩).1 true

/-- C4: every successful upload (201) returns a record whose tag field is the
head of its tags (hence absent exactly when tags is empty or missing), whose
size is the decoded blob length, whose title and description default to the
empty string, whose tags default to the empty list, and whose content_type
defaults to image/jpeg. -/
theorem C4_upload_record_fields (body : upload_image.RequestBody)
    (img : List Char) (uid : String) (data : List Nat)
    (himg : body.image = some img) (huid : body.user_id = some uid)
    (hdec : b64decode img = .ok data)
    (image_id upload_date : String) (st : Stores) :
    ∃ metadata : Record,
      (upload_image.lambda_handler body image_id upload_date true true st).1 =
        ⟨201, .uploadOk "Image uploaded successfully" image_id metadata⟩ ∧
      metadata.tag = metadata.tags.head? ∧
      metadata.tags = body.tags.getD [] ∧
      metadata.size = data.length ∧
      metadata.title = body.title.getD "" ∧
      metadata.description = body.description.getD "" ∧
      metadata.content_type = body.content_type.getD "image/jpeg" ∧
      metadata.user_id = uid ∧
      metadata.image_id = image_id := by
  refine ⟨{ image_id := image_id
            user_id := uid
            title := body.title.getD ""
            description := body.description.getD ""
            tags := body.tags.getD []
            upload_date := upload_date
            content_type := body.content_type.getD "image/jpeg"
            size := data.length
            tag := (body.tags.getD []).head? },
    ?_, rfl, rfl, rfl, rfl, rfl, rfl, rfl, rfl⟩
  simp [upload_image.lambda_handler, himg, huid, hdec, s3_utils.upload_image,
    dynamodb_utils.save_image_metadata]

/-- Witness for C4: uploading base64 of the bytes of hello with two tags. -/
theorem C4_upload_record_fields_witness :
    ∃ metadata : Record,
      (upload_image.lambda_handler
          ⟨some (b64encode [104, 101, 108, 108, 111]), some "u1", none, none,
            some ["a", "b"], none⟩
          "i1" "2024-01-01T00:00:00" true true ⟨[], []⟩).1 =
        ⟨201, .uploadOk "Image uploaded successfully" "i1" metadata⟩ ∧
      metadata.tag = metadata.tags.head? ∧
      metadata.tags = (some ["a", "b"]).getD [] ∧
      metadata.size = [104, 101, 108, 108, 111].length ∧
      metadata.title = (none : Option String).getD "" ∧
      metadata.description = (none : Option String).getD "" ∧
      metadata.content_type = (none : Option String).getD "image/jpeg" ∧
      metadata.user_id = "u1" ∧
      metadata.image_id = "i1" :=
  C4_upload_record_fields
    ⟨some (b64encode [104, 101, 108, 108, 111]), some "u1", none, none,
      some ["a", "b"], none⟩
    (b64encode [104, 101, 108, 108, 111]) "u1" [104, 101, 108, 108, 111]
    rfl rfl (b64decode_b64encode [104, 101, 108, 108, 111] (by decide))
    "i1" "2024-01-01T00:00:00" ⟨[], []⟩

/-- C3: the claim says a completed listing returns the stored records (all of
them, or the owner or first-tag subset, newest first), but on any non-empty
result the handler's json.dumps raises on the Decimal size attributes that
the DynamoDB resource returns, and the handler answers 500 — here evaluated
on a one-record store with no filter, where the claim requires 200 with that
record.  The record-store query itself dispatches as the claim describes, but
its result never reaches the caller. -/
theorem C3_list_decimal_500 :
    list_images.lambda_handler none true [sampleRecord] =
      ⟨500, .error "Internal server error: Object of type Decimal is not JSON serializable"⟩ ∧
    dynamodb_utils.list_images true [sampleRecord]
        (list_images.build_filters []) = [sampleRecord] ∧
    [sampleRecord] ≠ ([] : List Record) :=
  ⟨rfl, rfl, by decide⟩

/-- C9 counterexample: on a non-empty store, a backend error during the query
is caught inside dynamodb_utils.list_images, which returns an empty list, so
the handler returns 200 with count 0 — not the 500 the claim states; and a
query that completes with a non-empty result returns 500 from the Decimal
serialization failure — not the 200 with the count that the claim states. -/
theorem C9_counterexample :
    list_images.lambda_handler none false [sampleRecord] = ⟨200, .listOk 0 []⟩ ∧
    list_images.lambda_handler none true [sampleRecord] =
      ⟨500, .error "Internal server error: Object of type Decimal is not JSON serializable"⟩ ∧
    [sampleRecord] ≠ ([] : List Record) :=
  ⟨rfl, rfl, by decide⟩

/-- C9 amended: for every list request, the handler returns 200 with count 0
and an empty list whenever the query yields no records — including when an
internal error occurs during the query, which the record-store adapter
catches and turns into an empty result; when the query completes with a
non-empty result, serializing it raises on the Decimal size attributes and
the handler returns 500 with the interpolated Internal server error body. -/
theorem C9_list_status (qp : Option (List (String × String))) (queryOk : Bool)
    (db : List Record) :
    (dynamodb_utils.list_images queryOk db (list_images.build_filters (qp.getD [])) = [] →
      list_images.lambda_handler qp queryOk db = ⟨200, .listOk 0 []⟩) ∧
    (dynamodb_utils.list_images queryOk db (list_images.build_filters (qp.getD [])) ≠ [] →
      list_images.lambda_handler qp queryOk db =
        ⟨500, .error "Internal server error: Object of type Decimal is not JSON serializable"⟩) ∧
    (queryOk = false →
      list_images.lambda_handler qp queryOk db = ⟨200, .listOk 0 []⟩) := by
  refine ⟨?_, ?_, ?_⟩
  · intro hemp
    simp [list_images.lambda_handler, hemp]
  · intro hne
    obtain ⟨x, xs, hx⟩ := List.exists_cons_of_ne_nil hne
    simp [list_images.lambda_handler, hx]
  · rintro rfl
    simp [list_images.lambda_handler, dynamodb_utils.list_images]

/-- Witness for C9 on an empty store with a completed query. -/
theorem C9_list_status_witness :
    list_images.lambda_handler none true [] = ⟨200, .listOk 0 []⟩ :=
  (C9_list_status none true []).1 rfl

/-- C5: for every delete request whose image_id has an existing record, the
object-store delete and the record-store delete are both attempted (the call
list always contains both) regardless of either outcome; if either fails the
response is 500 with a body carrying both booleans, and if both succeed it is
200 with a confirmation message and the image_id. -/
theorem C5_delete_reports_partial_failure (db : List Record)
    (s3 : List (String × List Nat)) (image_id : String) (r : Record)
    (hget : dynamodb_utils.get_image_metadata true db image_id = some r)
    (s3DeleteOk dbDeleteOk : Bool) :
    (delete_image.lambda_handler (some [("image_id", image_id)])
        true s3DeleteOk dbDeleteOk ⟨s3, db⟩).2.2 =
      [.dbGet image_id, .s3Delete image_id, .dbDelete image_id] ∧
    (¬(s3DeleteOk = true ∧ dbDeleteOk = true) →
      (delete_image.lambda_handler (some [("image_id", image_id)])
          true s3DeleteOk dbDeleteOk ⟨s3, db⟩).1 =
        ⟨500, .deleteError "Failed to delete image completely" s3DeleteOk dbDeleteOk⟩) ∧
    (s3DeleteOk = true → dbDeleteOk = true →
      (delete_image.lambda_handler (some [("image_id", image_id)])
          true s3DeleteOk dbDeleteOk ⟨s3, db⟩).1 =
        ⟨200, .deleteOk "Image deleted successfully" image_id⟩) := by
  cases s3DeleteOk <;> cases dbDeleteOk <;>
    simp [delete_image.lambda_handler, hget, s3_utils.delete_image,
      dynamodb_utils.delete_image_metadata, List.lookup]

/-- Witness for C5 on a one-record store with the S3 delete failing. -/
theorem C5_delete_reports_partial_failure_witness :
    ((delete_image.lambda_handler (some [("image_id", "i1")])
        true false true ⟨[], [sampleRecord]⟩).2.2 =
      [.dbGet "i1", .s3Delete "i1", .dbDelete "i1"]) ∧
    ((delete_image.lambda_handler (some [("image_id", "i1")])
        true false true ⟨[], [sampleRecord]⟩).1 =
      ⟨500, .deleteError "Failed to delete image completely" false true⟩) :=
  ⟨(C5_delete_reports_partial_failure [sampleRecord] [] "i1" sampleRecord
      rfl false true).1,
   (C5_delete_reports_partial_failure [sampleRecord] [] "i1" sampleRecord
      rfl false true).2.1 (by simp)⟩

/-- C6: for every request whose image_id has an existing record and whose url
flag is set, the handler takes the url branch before considering download (the
call list is the metadata get then sign_url only, even when the download flag
is also set, so the blob is never fetched), returns 500 if sign_url returns
absent, and otherwise returns 200 with {image_id, url, metadata} where url is
the non-empty link string.  The hreal hypothesis records what the backend
guarantees: generate_presigned_url yields a non-empty URL or raises, and the
adapter reduces a raise to absent, so a present sign_url result is non-empty. -/
theorem C6_get_url_branch (db : List Record) (s3 : List (String × List Nat))
    (image_id : String) (r : Record)
    (hget : dynamodb_utils.get_image_metadata true db image_id = some r)
    (qp : List (String × String))
    (hurl : pyLower ((List.lookup "url" qp).getD "") = "true")
    (s3GetOk : Bool) (urlResult : Option String)
    (hreal : ∀ u, urlResult = some u → u ≠ "") :
    ((get_image.lambda_handler (some [("image_id", image_id)]) (some qp)
        true s3GetOk urlResult ⟨s3, db⟩).2 =
      [.dbGet image_id, .signUrl image_id]) ∧
    (urlResult = none →
      (get_image.lambda_handler (some [("image_id", image_id)]) (some qp)
          true s3GetOk urlResult ⟨s3, db⟩).1 =
        ⟨500, .error "Failed to generate presigned URL"⟩) ∧
    (∀ u, urlResult = some u →
      (get_image.lambda_handler (some [("image_id", image_id)]) (some qp)
          true s3GetOk urlResult ⟨s3, db⟩).1 =
        ⟨200, .getUrl image_id u r⟩ ∧ u ≠ "") := by
  refine ⟨?_, ?_, ?_⟩
  · cases urlResult with
    | none =>
      simp [get_image.lambda_handler, hget, hurl, s3_utils.get_image_url, List.lookup]
    | some u =>
      have hu := hreal u rfl
      simp [get_image.lambda_handler, hget, hurl, s3_utils.get_image_url,
        List.lookup, hu]
  · rintro rfl
    simp [get_image.lambda_handler, hget, hurl, s3_utils.get_image_url, List.lookup]
  · rintro u rfl
    have hu := hreal u rfl
    refine ⟨?_, hu⟩
    simp [get_image.lambda_handler, hget, hurl, s3_utils.get_image_url,
      List.lookup, hu]

/-- Witness for C6 on a one-record store with both flags set and a non-empty
sign_url result. -/
theorem C6_get_url_branch_witness :
    ((get_image.lambda_handler (some [("image_id", "i1")])
        (some [("url", "TRUE"), ("download", "true")])
        true true (some "https://bucket/i1") ⟨[], [sampleRecord]⟩).2 =
      [.dbGet "i1", .signUrl "i1"]) ∧
    ((get_image.lambda_handler (some [("image_id", "i1")])
        (some [("url", "TRUE"), ("download", "true")])
        true true (some "https://bucket/i1") ⟨[], [sampleRecord]⟩).1 =
      ⟨200, .getUrl "i1" "https://bucket/i1" sampleRecord⟩ ∧
      "https://bucket/i1" ≠ "") :=
  ⟨(C6_get_url_branch [sampleRecord] [] "i1" sampleRecord rfl
      [("url", "TRUE"), ("download", "true")] (by decide) true
      (some "https://bucket/i1") (fun u hu => by cases hu; decide)).1,
   (C6_get_url_branch [sampleRecord] [] "i1" sampleRecord rfl
      [("url", "TRUE"), ("download", "true")] (by decide) true
      (some "https://bucket/i1") (fun u hu => by cases hu; decide)).2.2
     "https://bucket/i1" rfl⟩

/-- C10: the url and download query flags of the get handler are enabled
exactly when the parameter value lowercases to the string true: with an
existing record, any pair of values that do not lowercase to true (and the
absent case) falls through to the metadata-only 200 response, while any value
that lowercases to true enters the corresponding branch (for url, the
sign_url call is issued). -/
theorem C10_get_flag_parsing (db : List Record) (s3 : List (String × List Nat))
    (image_id : String) (r : Record)
    (hget : dynamodb_utils.get_image_metadata true db image_id = some r)
    (s3GetOk : Bool) (urlResult : Option String) :
    (∀ uv dv : String, pyLower uv ≠ "true" → pyLower dv ≠ "true" →
      get_image.lambda_handler (some [("image_id", image_id)])
          (some [("url", uv), ("download", dv)]) true s3GetOk urlResult ⟨s3, db⟩ =
        (⟨200, .getMeta image_id r⟩, [.dbGet image_id])) ∧
    (get_image.lambda_handler (some [("image_id", image_id)]) (some [])
        true s3GetOk urlResult ⟨s3, db⟩ =
      (⟨200, .getMeta image_id r⟩, [.dbGet image_id])) ∧
    (∀ v : String, pyLower v = "true" →
      (get_image.lambda_handler (some [("image_id", image_id)]) (some [("url", v)])
          true s3GetOk urlResult ⟨s3, db⟩).2 =
        [.dbGet image_id, .signUrl image_id]) := by
  refine ⟨?_, ?_, ?_⟩
  · intro uv dv huv hdv
    simp [get_image.lambda_handler, hget, List.lookup, huv, hdv]
  · have h0 : ¬(pyLower "" = "true") := by decide
    simp [get_image.lambda_handler, hget, List.lookup, h0]
  · intro v hv
    cases urlResult with
    | none =>
      simp [get_image.lambda_handler, hget, hv, s3_utils.get_image_url, List.lookup]
    | some u =>
      by_cases hu : u = "" <;>
        simp [get_image.lambda_handler, hget, hv, s3_utils.get_image_url,
          List.lookup, hu]

/-- Witness for C10 with flag values 1 and yes, which do not enable the
flags, and TrUe, which does. -/
theorem C10_get_flag_parsing_witness :
    (get_image.lambda_handler (some [("image_id", "i1")])
        (some [("url", "1"), ("download", "yes")]) true true none
        ⟨[], [sampleRecord]⟩ =
      (⟨200, .getMeta "i1" sampleRecord⟩, [.dbGet "i1"])) ∧
    ((get_image.lambda_handler (some [("image_id", "i1")]) (some [("url", "TrUe")])
        true true none ⟨[], [sampleRecord]⟩).2 =
      [.dbGet "i1", .signUrl "i1"]) :=
  ⟨(C10_get_flag_parsing [sampleRecord] [] "i1" sampleRecord rfl true none).1
      "1" "yes" (by decide) (by decide),
   (C10_get_flag_parsing [sampleRecord] [] "i1" sampleRecord rfl true none).2.2
      "TrUe" (by decide)⟩

/-- C1 counterexample: uploading base64 of the empty byte string succeeds
(201), but the subsequent download=true get returns 404, because the handler
treats the empty blob as missing data (the falsy check on the downloaded
bytes) — so the round-trip does not hold for every byte string B. -/
theorem C1_counterexample :
    (upload_image.lambda_handler
        ⟨some (b64encode []), some "u1", none, none, none, none⟩
        "i1" "2024-01-01T00:00:00" true true ⟨[], []⟩).1.statusCode = 201 ∧
    (get_image.lambda_handler (some [("image_id", "i1")])
        (some [("download", "true")]) true true none
        (upload_image.lambda_handler
          ⟨some (b64encode []), some "u1", none, none, none, none⟩
          "i1" "2024-01-01T00:00:00" true true ⟨[], []⟩).2.1).1.statusCode = 404 :=
  ⟨rfl, rfl⟩

/-- C1 amended: for every non-empty byte string B, after a successful upload
(201) of base64(B) under some image_id, a get on that image_id with
download=true returns 200 with a base64-encoded image_data field that decodes
to exactly B. -/
theorem C1_upload_download_roundtrip (B : List Nat) (hne : B ≠ [])
    (hB : ∀ x ∈ B, x < 256)
    (body : upload_image.RequestBody) (uid : String)
    (himg : body.image = some (b64encode B)) (huid : body.user_id = some uid)
    (image_id upload_date : String) (st : Stores) :
    (upload_image.lambda_handler body image_id upload_date true true st).1.statusCode =
      201 ∧
    (∃ md : Record,
      (get_image.lambda_handler (some [("image_id", image_id)])
          (some [("download", "true")]) true true none
          (upload_image.lambda_handler body image_id upload_date true true st).2.1).1 =
        ⟨200, .getData image_id (b64encode B) (body.content_type.getD "image/jpeg") md⟩) ∧
    b64decode (b64encode B) = .ok B := by
  have hdec := b64decode_b64encode B hB
  have hurl : ¬(pyLower "" = "true") := by decide
  have hdl : pyLower "true" = "true" := by decide
  refine ⟨?_, ⟨{ image_id := image_id
                 user_id := uid
                 title := body.title.getD ""
                 description := body.description.getD ""
                 tags := body.tags.getD []
                 upload_date := upload_date
                 content_type := body.content_type.getD "image/jpeg"
                 size := B.length
                 tag := (body.tags.getD []).head? }, ?_⟩, hdec⟩
  · simp [upload_image.lambda_handler, himg, huid, hdec, s3_utils.upload_image,
      dynamodb_utils.save_image_metadata]
  · simp [upload_image.lambda_handler, himg, huid, hdec, s3_utils.upload_image,
      dynamodb_utils.save_image_metadata, get_image.lambda_handler,
      dynamodb_utils.get_image_metadata, s3_utils.download_image,
      List.lookup, hurl, hdl, hne]

/-- Witness for C1 uploading and downloading the bytes of hello. -/
theorem C1_upload_download_roundtrip_witness :
    (upload_image.lambda_handler
        ⟨some (b64encode [104, 101, 108, 108, 111]), some "u1", none, none, none, none⟩
        "i1" "2024-01-01T00:00:00" true true ⟨[], []⟩).1.statusCode = 201 ∧
    (∃ md : Record,
      (get_image.lambda_handler (some [("image_id", "i1")])
          (some [("download", "true")]) true true none
          (upload_image.lambda_handler
            ⟨some (b64encode [104, 101, 108, 108, 111]), some "u1", none, none,
              none, none⟩
            "i1" "2024-01-01T00:00:00" true true ⟨[], []⟩).2.1).1 =
        ⟨200, .getData "i1" (b64encode [104, 101, 108, 108, 111]) "image/jpeg" md⟩) ∧
    b64decode (b64encode [104, 101, 108, 108, 111]) = .ok [104, 101, 108, 108, 111] :=
  C1_upload_download_roundtrip [104, 101, 108, 108, 111] (by decide) (by decide)
    ⟨some (b64encode [104, 101, 108, 108, 111]), some "u1", none, none, none, none⟩
    "u1" rfl rfl "i1" "2024-01-01T00:00:00" ⟨[], []⟩
